import Mathlib

/-!
Shallow embedding of `src/app.py`, a Flask application that glues two
upstream HTTP services together: a memory service ("Supermemory", for
document ingestion and search) and a generative-language service
("Gemini", for answer synthesis).

Python values that come from JSON bodies are modelled by the inductive
`Json` (with `Json.null` also playing the role of Python `None`).
Python exceptions are modelled by `PyErr`; fallible steps return
`Except PyErr _`.  Each upstream HTTP round trip is modelled by an
`HttpResponse` supplied by the environment; the requests the code
builds are modelled by `HttpRequest`, and the external calls a route
performs (with the arguments of the Python call) are recorded in a
trace of `ExtCall`s, in order.
-/

namespace App

/-- Model of a Python value deserialised from JSON (`Json.null` doubles as
Python `None`, e.g. the result of `request.get_json()` on a `null` body). -/
inductive Json where
  | null : Json
  | bool (b : Bool) : Json
  | num (n : Int) : Json
  | str (s : String) : Json
  | arr (items : List Json) : Json
  | obj (fields : List (String × Json)) : Json

/-- Python truthiness (`bool(v)`) of a JSON-derived value: `None`, `False`,
`0`, the empty string, the empty list and the empty dict are falsy. -/
def Json.truthy : Json → Bool
  | .null => false
  | .bool b => b
  | .num n => n != 0
  | .str s => s != ""
  | .arr items => !items.isEmpty
  | .obj fields => !fields.isEmpty

/-- First-match field lookup in a JSON object, as in a Python dict built by
`json.loads` (keys are unique there, so first match is the match). -/
def lookupField : List (String × Json) → String → Option Json
  | [], _ => none
  | (k, v) :: rest, key => if k = key then some v else lookupField rest key

/-- Model of the Python exceptions the app can raise or catch. -/
inductive PyErr where
  | httpError (status : Nat) (text : String) : PyErr
  | indexError : PyErr
  | keyError (k : String) : PyErr
  | typeError (msg : String) : PyErr
  | attributeError (msg : String) : PyErr
  | jsonDecodeError : PyErr
  deriving DecidableEq

/-- Python `str(e)` of each modelled exception, used where the handlers
interpolate the exception into an error message. -/
def PyErr.msg : PyErr → String
  | .httpError status text => toString status ++ " Error: " ++ text
  | .indexError => "list index out of range"
  | .keyError k => "'" ++ k ++ "'"
  | .typeError m => m
  | .attributeError m => m
  | .jsonDecodeError => "Expecting value: line 1 column 1 (char 0)"

/-- Python subscripting `v[key]` restricted to the shapes the app uses:
dict lookup by string key (`KeyError` when absent) and list indexing by a
number (`IndexError` out of range, with Python's negative-index rule);
anything else raises a `TypeError`. -/
def pySubscript (v : Json) (key : Json) : Except PyErr Json :=
  match v, key with
  | .obj fields, .str k =>
      match lookupField fields k with
      | some x => .ok x
      | none => .error (.keyError k)
  | .arr items, .num i =>
      let j : Int := if i < 0 then i + items.length else i
      if h : 0 ≤ j ∧ j.toNat < items.length then .ok (items.get ⟨j.toNat, h.2⟩)
      else .error .indexError
  | .obj _, _ => .error (.keyError "non-string key")
  | _, _ => .error (.typeError "object is not subscriptable")

/-- Python type name of a JSON-derived value, for `AttributeError` texts. -/
def Json.pyType : Json → String
  | .null => "NoneType"
  | .bool _ => "bool"
  | .num _ => "int"
  | .str _ => "str"
  | .arr _ => "list"
  | .obj _ => "dict"

/-- Python `v.get(key, default)`: defined on dicts only; on any other value
(including `None`) the attribute access itself raises `AttributeError`. -/
def pyGet (v : Json) (key : String) (default : Json) : Except PyErr Json :=
  match v with
  | .obj fields => .ok ((lookupField fields key).getD default)
  | other => .error (.attributeError
      ("'" ++ other.pyType ++ "' object has no attribute 'get'"))

/-- Model of an HTTP response from an upstream service: its status code, its
body parsed as JSON when the body is valid JSON (`none` otherwise), and its
raw body text (`response.text`). -/
structure HttpResponse where
  status : Nat
  jsonBody : Option Json
  text : String

/-- Model of an HTTP request the app builds with `requests.post`. -/
structure HttpRequest where
  url : String
  headers : List (String × String)
  body : Json

/-- Process-wide configuration read once at startup: the two API keys from
the environment (`os.getenv` yields `None`, modelled `none`, when unset). -/
structure Config where
  supermemoryKey : Option String
  geminiKey : Option String

/-- Python `str()` of an optional string, as an f-string interpolates it
(`None` prints as the text "None"). -/
def pyStrOpt : Option String → String
  | none => "None"
  | some s => s

/-- Base URL of the memory service (module constant `SUPERMEMORY_BASE_URL`). -/
def SUPERMEMORY_BASE_URL : String := "https://api.supermemory.ai/v3"

/-- URL of the synthesis service with the key interpolated (module constant
`GEMINI_API_URL`). -/
def GEMINI_API_URL (cfg : Config) : String :=
  "https://generativelanguage.googleapis.com/v1beta/models/gemini-2.0-flash:generateContent?key="
    ++ pyStrOpt cfg.geminiKey

/-- Headers sent on every memory-service call: bearer-token authentication
plus the JSON content type. -/
def supermemoryHeaders (cfg : Config) : List (String × String) :=
  [("Authorization", "Bearer " ++ pyStrOpt cfg.supermemoryKey),
   ("Content-Type", "application/json")]

/-- Model of `response.raise_for_status()`: raises `requests.exceptions.HTTPError`
exactly for 4xx and 5xx status codes. -/
def raiseForStatus (r : HttpResponse) : Except PyErr Unit :=
  if 400 ≤ r.status ∧ r.status < 600 then .error (.httpError r.status r.text)
  else .ok ()

/-- Model of `response.json()`: the parsed body, or a decode error when the
body is not valid JSON. -/
def respJson (r : HttpResponse) : Except PyErr Json :=
  match r.jsonBody with
  | some j => .ok j
  | none => .error .jsonDecodeError

mutual

/-- Python `repr()` of a JSON-derived value (used by `str()` on containers). -/
def pyRepr : Json → String
  | .null => "None"
  | .bool true => "True"
  | .bool false => "False"
  | .num n => toString n
  | .str s => "'" ++ s ++ "'"
  | .arr items => "[" ++ pyReprItems items ++ "]"
  | .obj fields => "\x7b" ++ pyReprFields fields ++ "\x7d"

/-- Comma-separated `repr`s of the items of a Python list. -/
def pyReprItems : List Json → String
  | [] => ""
  | [x] => pyRepr x
  | x :: y :: rest => pyRepr x ++ ", " ++ pyReprItems (y :: rest)

/-- Comma-separated `repr`s of the entries of a Python dict. -/
def pyReprFields : List (String × Json) → String
  | [] => ""
  | [(k, v)] => "'" ++ k ++ "': " ++ pyRepr v
  | (k, v) :: f :: rest =>
      "'" ++ k ++ "': " ++ pyRepr v ++ ", " ++ pyReprFields (f :: rest)

end

/-- Python `str()` of a JSON-derived value, as an f-string interpolates it:
a string prints without quotes, everything else as its `repr`. -/
def pyStr : Json → String
  | .str s => s
  | v => pyRepr v

/-- Whether a byte is a UTF-8 continuation byte (`0x80`-`0xBF`). -/
def contByte (b : Nat) : Bool := 0x80 ≤ b && b ≤ 0xBF

/-- Lower bound for the second byte of a multi-byte UTF-8 sequence with the
given lead byte (CPython's table: `0xE0` needs `0xA0`-, `0xF0` needs `0x90`-,
otherwise `0x80`-; this is what excludes overlong encodings). -/
def utf8SecondLo (lead : Nat) : Nat :=
  if lead = 0xE0 then 0xA0 else if lead = 0xF0 then 0x90 else 0x80

/-- Upper bound for the second byte of a multi-byte UTF-8 sequence with the
given lead byte (`0xED` allows -`0x9F`, `0xF4` allows -`0x8F`, otherwise
-`0xBF`; this is what excludes surrogates and code points past `0x10FFFF`). -/
def utf8SecondHi (lead : Nat) : Nat :=
  if lead = 0xED then 0x9F else if lead = 0xF4 then 0x8F else 0xBF

/-- One step of CPython's UTF-8 decoder with `errors='ignore'`, on lead byte
`b1` with remaining input `t1`: either a decoded code point or `none` for an
invalid (or truncated) sequence that is silently dropped, together with the
input still to decode.  The second-byte bounds exclude overlong encodings,
surrogates and code points past `0x10FFFF`, as CPython does. -/
def utf8Step (b1 : Nat) (t1 : List Nat) : Option Nat × List Nat :=
  if b1 ≤ 0x7F then (some b1, t1)
  else if 0xC2 ≤ b1 && b1 ≤ 0xDF then
    match t1 with
    | [] => (none, [])
    | b2 :: t2 =>
      if utf8SecondLo b1 ≤ b2 && b2 ≤ utf8SecondHi b1 then
        (some ((b1 - 0xC0) * 0x40 + (b2 - 0x80)), t2)
      else (none, t1)
  else if 0xE0 ≤ b1 && b1 ≤ 0xEF then
    match t1 with
    | [] => (none, [])
    | b2 :: t2 =>
      if utf8SecondLo b1 ≤ b2 && b2 ≤ utf8SecondHi b1 then
        match t2 with
        | [] => (none, [])
        | b3 :: t3 =>
          if contByte b3 then
            (some ((b1 - 0xE0) * 0x1000 + (b2 - 0x80) * 0x40 + (b3 - 0x80)), t3)
          else (none, t2)
      else (none, t1)
  else if 0xF0 ≤ b1 && b1 ≤ 0xF4 then
    match t1 with
    | [] => (none, [])
    | b2 :: t2 =>
      if utf8SecondLo b1 ≤ b2 && b2 ≤ utf8SecondHi b1 then
        match t2 with
        | [] => (none, [])
        | b3 :: t3 =>
          if contByte b3 then
            match t3 with
            | [] => (none, [])
            | b4 :: t4 =>
              if contByte b4 then
                (some ((b1 - 0xF0) * 0x40000 + (b2 - 0x80) * 0x1000
                    + (b3 - 0x80) * 0x40 + (b4 - 0x80)), t4)
              else (none, t3)
          else (none, t2)
      else (none, t1)
  else (none, t1)

/-- Each decode step leaves at most the input it was given. -/
theorem utf8Step_snd_length (b1 : Nat) (t1 : List Nat) :
    (utf8Step b1 t1).2.length ≤ t1.length := by
  unfold utf8Step
  repeat first
  | (split <;> try simp)
  | omega

/-- Decode loop, by fuel; with fuel at least the input length the fuel never
runs out (`utf8DecodeIgnoreAux_fuel`), since every step consumes at least one
byte. -/
def utf8DecodeIgnoreAux : Nat → List Nat → List Nat
  | 0, _ => []
  | _ + 1, [] => []
  | fuel + 1, b :: t =>
    match utf8Step b t with
    | (some cp, rest) => cp :: utf8DecodeIgnoreAux fuel rest
    | (none, rest) => utf8DecodeIgnoreAux fuel rest

/-- Any fuel at least the input length yields the same decode, so the fuel in
`utf8DecodeIgnore` is an implementation device and not a semantic bound. -/
theorem utf8DecodeIgnoreAux_fuel (fuel : Nat) : ∀ (fuel2 : Nat) (l : List Nat),
    l.length ≤ fuel → l.length ≤ fuel2 →
    utf8DecodeIgnoreAux fuel l = utf8DecodeIgnoreAux fuel2 l := by
  induction fuel with
  | zero =>
    intro fuel2 l h _
    have : l = [] := List.length_eq_zero.mp (Nat.le_zero.mp h)
    subst this
    cases fuel2 <;> simp [utf8DecodeIgnoreAux]
  | succ n ih =>
    intro fuel2 l h h2
    cases l with
    | nil => cases fuel2 <;> simp [utf8DecodeIgnoreAux]
    | cons b t =>
      cases fuel2 with
      | zero => simp at h2
      | succ m =>
        simp only [List.length_cons, Nat.succ_le_succ_iff] at h h2
        have hs := utf8Step_snd_length b t
        simp only [utf8DecodeIgnoreAux]
        cases hst : utf8Step b t with
        | mk c rest =>
          rw [hst] at hs
          cases c with
          | none => exact ih m rest (le_trans hs h) (le_trans hs h2)
          | some cp =>
            simp only []
            rw [ih m rest (le_trans hs h) (le_trans hs h2)]

/-- Model of CPython's UTF-8 decoder with `errors='ignore'`: decodes the byte
list to the list of code points, silently dropping every invalid byte
sequence.  Total: no input raises. -/
def utf8DecodeIgnore (bytes : List Nat) : List Nat :=
  utf8DecodeIgnoreAux bytes.length bytes

/-- Model of `bytes.decode('utf-8', errors='ignore')`: the decoded string.
Every code point `utf8DecodeIgnore` emits is a valid scalar value, so
`Char.ofNat` reproduces it exactly. -/
def pyDecodeUtf8Ignore (bytes : List Nat) : String :=
  ⟨(utf8DecodeIgnore bytes).map Char.ofNat⟩

/-- External call performed by a route, with the arguments of the Python
call: `add_memory_to_supermemory(content, source)`, `search_supermemory(query)`
or `generate_cohesive_answer(question, context, source)`. -/
inductive ExtCall where
  | addMemory (content : String) (source : String) : ExtCall
  | search (query : Json) : ExtCall
  | synthesize (question context source : Json) : ExtCall

/-- HTTP request built by `add_memory_to_supermemory` (lines 28-36): JSON
payload with the content string and source filename, posted to `/memories`
with bearer-token headers. -/
def add_memory_request (cfg : Config) (content source : String) : HttpRequest :=
  { url := SUPERMEMORY_BASE_URL ++ "/memories"
    headers := supermemoryHeaders cfg
    body := .obj [("content", .str content), ("source", .str source)] }

/-- Result of `add_memory_to_supermemory` given the upstream response (lines
36-40): `raise_for_status`, then the parsed JSON body. -/
def add_memory_result (r : HttpResponse) : Except PyErr Json := do
  let _ ← raiseForStatus r
  respJson r

/-- HTTP request built by `search_supermemory` (lines 47-55): JSON payload
with the query under `q` and `limit` 1, posted to `/search` with bearer-token
headers. -/
def search_request (cfg : Config) (query : Json) : HttpRequest :=
  { url := SUPERMEMORY_BASE_URL ++ "/search"
    headers := supermemoryHeaders cfg
    body := .obj [("q", query), ("limit", .num 1)] }

/-- Result of `search_supermemory` given the upstream response (lines 56-59):
`raise_for_status`, parse the JSON body, then `result.get("results", [])`. -/
def search_supermemory_result (r : HttpResponse) : Except PyErr Json := do
  let _ ← raiseForStatus r
  let result ← respJson r
  pyGet result "results" (.arr [])

/-- Prompt built by `generate_cohesive_answer` (lines 68-80): the f-string
with the source, context and question interpolated by Python `str()`. -/
def gemini_prompt (question context source : Json) : String :=
  "\n    You are an expert assistant. Your task is to answer the user's question based *only* on the following context retrieved from the document named '"
    ++ pyStr source
    ++ "'.\n    Do not use any outside knowledge. If the answer is not in the context, state that clearly.\n\n    **Context:**\n    ---\n    "
    ++ pyStr context
    ++ "\n    ---\n\n    **User's Question:** "
    ++ pyStr question
    ++ "\n\n    **Answer:**\n    "

/-- HTTP request built by `generate_cohesive_answer` (lines 66-84): the
prompt wrapped in the `contents`/`parts` payload, posted to the Gemini URL. -/
def gemini_request (cfg : Config) (question context source : Json) : HttpRequest :=
  { url := GEMINI_API_URL cfg
    headers := [("Content-Type", "application/json")]
    body := .obj [("contents", .arr [.obj [("parts",
        .arr [.obj [("text", .str (gemini_prompt question context source))]])]])] }

/-- Result of `generate_cohesive_answer` given the upstream response (lines
84-89): `raise_for_status`, parse the JSON body, then the subscript chain
`result['candidates'][0]['content']['parts'][0]['text']`. -/
def generate_cohesive_answer_result (r : HttpResponse) : Except PyErr Json := do
  let _ ← raiseForStatus r
  let result ← respJson r
  let candidates ← pySubscript result (.str "candidates")
  let c0 ← pySubscript candidates (.num 0)
  let content ← pySubscript c0 (.str "content")
  let parts ← pySubscript content (.str "parts")
  let p0 ← pySubscript parts (.num 0)
  pySubscript p0 (.str "text")

/-- Outcome of a route: a response with its status code and JSON body, a
rendered template, a raw HTML page with a status, or an exception that
escapes the handler uncaught. -/
inductive RouteResult where
  | resp (status : Nat) (body : Json) : RouteResult
  | template (status : Nat) (name : String) : RouteResult
  | page (status : Nat) (html : String) : RouteResult
  | uncaught (e : PyErr) : RouteResult

/-- Status code of a route outcome, when the handler produced a response. -/
def RouteResult.statusCode : RouteResult → Option Nat
  | .resp status _ => some status
  | .template status _ => some status
  | .page status _ => some status
  | .uncaught _ => none

/-- Python truthiness of an API key read by `os.getenv`: falsy when the
variable is unset (`None`) or set to the empty string. -/
def keyTruthy : Option String → Bool
  | none => false
  | some s => s != ""

/-- Route `GET /` (lines 93-97): the configuration-error page with status 500
when either API key is unset or empty, the rendered `index.html` otherwise. -/
def index (cfg : Config) : RouteResult :=
  if !keyTruthy cfg.supermemoryKey || !keyTruthy cfg.geminiKey then
    .page 500 "<h1>Configuration Error: API keys are missing. Please check your .env file.</h1>"
  else .template 200 "index.html"

/-- An uploaded multipart file: its filename and its raw bytes. -/
structure UploadedFile where
  filename : String
  contents : List Nat

/-- The `except` clauses of `upload_file_route` (lines 111-114): an
`HTTPError` becomes a 500 with the upstream status and body text in the
message, any other exception a 500 with `str(e)`. -/
def upload_catch (e : PyErr) : RouteResult :=
  match e with
  | .httpError status text =>
      .resp 500 (.obj [("success", .bool false),
        ("error", .str ("API Error: " ++ toString status ++ " - " ++ text))])
  | other =>
      .resp 500 (.obj [("success", .bool false), ("error", .str other.msg)])

/-- Route `POST /upload` (lines 99-114).  `file` is the optional `file`
field of the multipart form (`none` when absent); `memResp` is the response
the memory service would give to the ingestion request.  Returns the route
outcome and the trace of external calls performed. -/
def upload_file_route (file : Option UploadedFile)
    (memResp : HttpResponse) : RouteResult × List ExtCall :=
  match file with
  | none =>
      (.resp 400 (.obj [("success", .bool false), ("error", .str "No file part")]), [])
  | some f =>
    if f.filename = "" then
      (.resp 400 (.obj [("success", .bool false), ("error", .str "No selected file")]), [])
    else
      let content_string := pyDecodeUtf8Ignore f.contents
      let trace := [ExtCall.addMemory content_string f.filename]
      match add_memory_result memResp with
      | .ok _ =>
          (.resp 200 (.obj [("success", .bool true),
            ("message", .str ("'" ++ f.filename ++ "' was successfully added to Supermemory."))]),
           trace)
      | .error e => (upload_catch e, trace)

/-- The fixed apology body `POST /query` returns when the search yields no
usable context (line 126). -/
def apologyBody : Json :=
  .obj [("answer",
    .str "I'm sorry, I couldn't find any information in your documents related to that question.")]

/-- The `except` clauses of `query_route` (lines 135-140): an `HTTPError`
becomes a 500 with the upstream status and body text, an `IndexError` or
`KeyError` a 500 with the parse-error message, any other exception a 500
with `str(e)`. -/
def query_catch (e : PyErr) : RouteResult :=
  match e with
  | .httpError status text =>
      .resp 500 (.obj [("error",
        .str ("API Error: " ++ toString status ++ " - " ++ text))])
  | .indexError =>
      .resp 500 (.obj [("error",
        .str ("Could not parse the search response from Supermemory. Error: "
          ++ PyErr.msg .indexError))])
  | .keyError k =>
      .resp 500 (.obj [("error",
        .str ("Could not parse the search response from Supermemory. Error: "
          ++ PyErr.msg (.keyError k)))])
  | other => .resp 500 (.obj [("error", .str other.msg)])

/-- Body of `query_route` after the search returned `results` (lines
125-134): the falsy/empty-chunks test, the chunk and title extraction with
their `.get` defaults, and the synthesis call.  Returns the handler body (or
the exception it raises) and the external calls performed after the search. -/
def query_after_search (question results : Json) (geminiResp : HttpResponse) :
    Except PyErr Json × List ExtCall :=
  if !results.truthy then (.ok apologyBody, [])
  else
    match pySubscript results (.num 0) with
    | .error e => (.error e, [])
    | .ok first =>
      match pyGet first "chunks" .null with
      | .error e => (.error e, [])
      | .ok chunksVal =>
        if !chunksVal.truthy then (.ok apologyBody, [])
        else
          match pySubscript first (.str "chunks") with
          | .error e => (.error e, [])
          | .ok chunks =>
            match pySubscript chunks (.num 0) with
            | .error e => (.error e, [])
            | .ok top_chunk =>
              match pyGet top_chunk "content" (.str "") with
              | .error e => (.error e, [])
              | .ok context =>
                match pyGet first "title" (.str "an uploaded document") with
                | .error e => (.error e, [])
                | .ok source =>
                  match generate_cohesive_answer_result geminiResp with
                  | .error e => (.error e, [.synthesize question context source])
                  | .ok final_answer =>
                      (.ok (.obj [("answer", final_answer)]),
                       [.synthesize question context source])

/-- Route `POST /query` (lines 116-140).  `data` is the value
`request.get_json()` produced from the request body (`Json.null` when the
body is the JSON literal `null`); `searchResp` and `geminiResp` are the
responses the two upstream services would give.  Returns the route outcome
and the trace of external calls performed.  The `question` extraction and
check happen before the `try` block, so an exception there escapes
uncaught. -/
def query_route (data : Json)
    (searchResp geminiResp : HttpResponse) : RouteResult × List ExtCall :=
  match pyGet data "question" .null with
  | .error e => (.uncaught e, [])
  | .ok question =>
    if !question.truthy then
      (.resp 400 (.obj [("error", .str "Question is required.")]), [])
    else
      match search_supermemory_result searchResp with
      | .error e => (query_catch e, [.search question])
      | .ok results =>
        match query_after_search question results geminiResp with
        | (.ok body, calls) => (.resp 200 body, .search question :: calls)
        | (.error e, calls) => (query_catch e, .search question :: calls)

/-! Helper lemmas about the Python-value primitives. -/

/-- Subscripting a non-empty Python list at index 0 yields its head. -/
theorem pySubscript_arr_zero (x : Json) (xs : List Json) :
    pySubscript (.arr (x :: xs)) (.num 0) = .ok x := by
  simp [pySubscript]

/-- A non-empty Python list is truthy. -/
theorem truthy_arr_cons (x : Json) (xs : List Json) :
    Json.truthy (.arr (x :: xs)) = true := rfl

/-- A non-empty Python string is truthy. -/
theorem truthy_str (s : String) (h : s ≠ "") : Json.truthy (.str s) = true := by
  simpa [Json.truthy] using h

/-- Python `.get` on a dict yields the stored field when it is present. -/
theorem pyGet_obj_found (fields : List (String × Json)) (k : String)
    (d v : Json) (h : lookupField fields k = some v) :
    pyGet (.obj fields) k d = .ok v := by
  simp [pyGet, h]

/-- Python `.get` on a dict yields the default when the field is absent. -/
theorem pyGet_obj_missing (fields : List (String × Json)) (k : String)
    (d : Json) (h : lookupField fields k = none) :
    pyGet (.obj fields) k d = .ok d := by
  simp [pyGet, h]

/-- A response with a status outside 400-599 passes `raise_for_status`. -/
theorem raiseForStatus_ok (r : HttpResponse)
    (h : ¬ (400 ≤ r.status ∧ r.status < 600)) : raiseForStatus r = .ok () := by
  simp [raiseForStatus, h]

/-- A response with a 4xx or 5xx status raises `HTTPError` carrying the
status and body text. -/
theorem raiseForStatus_error (r : HttpResponse) (h1 : 400 ≤ r.status)
    (h2 : r.status < 600) :
    raiseForStatus r = .error (.httpError r.status r.text) := by
  simp [raiseForStatus, h1, h2]

/-- The ingestion call turns a 4xx/5xx upstream response into `HTTPError`. -/
theorem add_memory_result_httpError (r : HttpResponse) (h1 : 400 ≤ r.status)
    (h2 : r.status < 600) :
    add_memory_result r = .error (.httpError r.status r.text) := by
  unfold add_memory_result
  rw [raiseForStatus_error r h1 h2]
  rfl

/-- The search call turns a 4xx/5xx upstream response into `HTTPError`. -/
theorem search_result_httpError (r : HttpResponse) (h1 : 400 ≤ r.status)
    (h2 : r.status < 600) :
    search_supermemory_result r = .error (.httpError r.status r.text) := by
  unfold search_supermemory_result
  rw [raiseForStatus_error r h1 h2]
  rfl

/-- The synthesis call turns a 4xx/5xx upstream response into `HTTPError`. -/
theorem generate_result_httpError (r : HttpResponse) (h1 : 400 ≤ r.status)
    (h2 : r.status < 600) :
    generate_cohesive_answer_result r = .error (.httpError r.status r.text) := by
  unfold generate_cohesive_answer_result
  rw [raiseForStatus_error r h1 h2]
  rfl

/-! Claim theorems. -/

/-- C5: a `POST /upload` request whose multipart form has no `file` field, or
whose file has an empty filename, gets HTTP 400 with a body holding
`success: false` and a non-empty error message, and no external service is
contacted (the trace of external calls is empty) — whatever the memory
service would have answered. -/
theorem c5_upload_rejects_missing_file :
    (∀ memResp : HttpResponse,
       upload_file_route none memResp =
         (.resp 400 (.obj [("success", .bool false), ("error", .str "No file part")]), []))
  ∧ (∀ (bytes : List Nat) (memResp : HttpResponse),
       upload_file_route (some ⟨"", bytes⟩) memResp =
         (.resp 400 (.obj [("success", .bool false), ("error", .str "No selected file")]), [])) := by
  constructor
  · intro memResp
    rfl
  · intro bytes memResp
    rfl

/-- C6: a `POST /query` request whose JSON body is an object with a missing
or empty `question` field gets HTTP 400 with a descriptive error message,
and no external service is contacted — whatever the upstream services would
have answered. -/
theorem c6_query_rejects_missing_question
    (dataFields : List (String × Json)) (searchResp geminiResp : HttpResponse)
    (h : lookupField dataFields "question" = none
       ∨ lookupField dataFields "question" = some (.str "")) :
    query_route (.obj dataFields) searchResp geminiResp =
      (.resp 400 (.obj [("error", .str "Question is required.")]), []) := by
  cases h with
  | inl h => simp [query_route, pyGet, h, Json.truthy]
  | inr h => simp [query_route, pyGet, h, Json.truthy]

/-- C6 witness: the theorem applied to a body with no `question` field. -/
theorem c6_witness :
    query_route (.obj [("q", .str "hello")]) ⟨200, some (.obj []), ""⟩
        ⟨200, some (.obj []), ""⟩ =
      (.resp 400 (.obj [("error", .str "Question is required.")]), []) :=
  c6_query_rejects_missing_question [("q", .str "hello")]
    ⟨200, some (.obj []), ""⟩ ⟨200, some (.obj []), ""⟩ (Or.inl rfl)

/-- C7: `GET /` renders the static page exactly when both API keys are
configured to non-empty values; when either is unset or empty it returns the
HTTP 500 configuration-error page with a human-readable message. -/
theorem c7_index_requires_both_keys (cfg : Config) :
    (index cfg = .template 200 "index.html" ↔
       (∃ s, cfg.supermemoryKey = some s ∧ s ≠ "")
         ∧ (∃ t, cfg.geminiKey = some t ∧ t ≠ ""))
  ∧ (¬ ((∃ s, cfg.supermemoryKey = some s ∧ s ≠ "")
         ∧ (∃ t, cfg.geminiKey = some t ∧ t ≠ "")) →
       index cfg =
         .page 500 "<h1>Configuration Error: API keys are missing. Please check your .env file.</h1>") := by
  obtain ⟨sk, gk⟩ := cfg
  have hks : keyTruthy sk = true ↔ ∃ a, sk = some a ∧ a ≠ "" := by
    cases sk <;> simp [keyTruthy]
  have hkg : keyTruthy gk = true ↔ ∃ a, gk = some a ∧ a ≠ "" := by
    cases gk <;> simp [keyTruthy]
  by_cases h1 : keyTruthy sk = true <;> by_cases h2 : keyTruthy gk = true
  · have ht : index ⟨sk, gk⟩ = .template 200 "index.html" := by
      simp [index, h1, h2]
    exact ⟨⟨fun _ => ⟨hks.mp h1, hkg.mp h2⟩, fun _ => ht⟩,
           fun hc => absurd ⟨hks.mp h1, hkg.mp h2⟩ hc⟩
  · rw [Bool.not_eq_true] at h2
    have hp : index ⟨sk, gk⟩ =
        .page 500 "<h1>Configuration Error: API keys are missing. Please check your .env file.</h1>" := by
      simp [index, h2]
    refine ⟨⟨fun h => ?_, fun hab => ?_⟩, fun _ => hp⟩
    · rw [hp] at h
      simp at h
    · exact absurd (hkg.mpr hab.2) (by simp [h2])
  · rw [Bool.not_eq_true] at h1
    have hp : index ⟨sk, gk⟩ =
        .page 500 "<h1>Configuration Error: API keys are missing. Please check your .env file.</h1>" := by
      simp [index, h1]
    refine ⟨⟨fun h => ?_, fun hab => ?_⟩, fun _ => hp⟩
    · rw [hp] at h
      simp at h
    · exact absurd (hks.mpr hab.1) (by simp [h1])
  · rw [Bool.not_eq_true] at h1
    have hp : index ⟨sk, gk⟩ =
        .page 500 "<h1>Configuration Error: API keys are missing. Please check your .env file.</h1>" := by
      simp [index, h1]
    refine ⟨⟨fun h => ?_, fun hab => ?_⟩, fun _ => hp⟩
    · rw [hp] at h
      simp at h
    · exact absurd (hks.mpr hab.1) (by simp [h1])

/-- C7 witness: both directions of the theorem at concrete configurations —
with both keys set the page renders, with the Gemini key unset the 500
configuration-error page comes back. -/
theorem c7_witness :
    index ⟨some "sm-key", some "gm-key"⟩ = .template 200 "index.html"
  ∧ index ⟨some "sm-key", none⟩ =
      .page 500 "<h1>Configuration Error: API keys are missing. Please check your .env file.</h1>" :=
  ⟨(c7_index_requires_both_keys ⟨some "sm-key", some "gm-key"⟩).1.mpr
      ⟨⟨"sm-key", rfl, by decide⟩, ⟨"gm-key", rfl, by decide⟩⟩,
   (c7_index_requires_both_keys ⟨some "sm-key", none⟩).2
      (by rintro ⟨-, t, ht, -⟩; exact Option.noConfusion ht)⟩

/-- C10: a `POST /query` whose body is the JSON literal `null` makes
`request.get_json()` yield `None`, and `data.get('question')` — which runs
before the `try` block — raises an uncaught `AttributeError`: the handler
produces neither the specified 400 nor any JSON error object, whatever the
upstream services would have answered. -/
theorem c10_null_body_uncaught_attribute_error
    (searchResp geminiResp : HttpResponse) :
    query_route .null searchResp geminiResp =
      (.uncaught (.attributeError "'NoneType' object has no attribute 'get'"), [])
  ∧ (query_route .null searchResp geminiResp).1.statusCode = none := by
  exact ⟨rfl, rfl⟩

/-- C1: on a `POST /query` with a non-empty question, when the search yields
at least one result whose first entry carries at least one chunk (with its
content field, and the result its title field) and the synthesis response
parses to `ans`, the route performs exactly one synthesis call — with the
question, the first chunk's content and the first result's title as
arguments — and returns HTTP 200 with body `{answer: ans}`, the synthesis
output unmodified. -/
theorem c1_query_synthesizes_first_chunk
    (dataFields : List (String × Json)) (q : String) (hq : q ≠ "")
    (hdata : lookupField dataFields "question" = some (.str q))
    (searchResp geminiResp : HttpResponse)
    (rest cs : List Json) (rfields cfields : List (String × Json))
    (ctx ttl ans : Json)
    (hs : search_supermemory_result searchResp =
      .ok (.arr (.obj rfields :: rest)))
    (hchunks : lookupField rfields "chunks" = some (.arr (.obj cfields :: cs)))
    (hcontent : lookupField cfields "content" = some ctx)
    (htitle : lookupField rfields "title" = some ttl)
    (hg : generate_cohesive_answer_result geminiResp = .ok ans) :
    query_route (.obj dataFields) searchResp geminiResp =
      (.resp 200 (.obj [("answer", ans)]),
       [.search (.str q), .synthesize (.str q) ctx ttl]) := by
  simp [query_route, query_after_search, pyGet, hdata, truthy_str _ hq, hs,
    pySubscript_arr_zero, pySubscript, hchunks, hcontent, htitle, hg,
    truthy_arr_cons, lookupField]

/-- C1 witness: the theorem at the spec's own example — question
"What is the refund policy?", one result titled "policy.txt" with one chunk
"Refunds are processed within 14 days.", synthesis output "Within 14 days." -/
theorem c1_witness :
    query_route (.obj [("question", .str "What is the refund policy?")])
        ⟨200, some (.obj [("results", .arr [.obj
          [("chunks", .arr [.obj [("content", .str "Refunds are processed within 14 days.")]]),
           ("title", .str "policy.txt")]])]), ""⟩
        ⟨200, some (.obj [("candidates", .arr [.obj [("content", .obj [("parts",
          .arr [.obj [("text", .str "Within 14 days.")]])])]])]), ""⟩ =
      (.resp 200 (.obj [("answer", .str "Within 14 days.")]),
       [.search (.str "What is the refund policy?"),
        .synthesize (.str "What is the refund policy?")
          (.str "Refunds are processed within 14 days.") (.str "policy.txt")]) :=
  c1_query_synthesizes_first_chunk
    [("question", .str "What is the refund policy?")] "What is the refund policy?"
    (by decide) rfl _ _ [] []
    [("chunks", .arr [.obj [("content", .str "Refunds are processed within 14 days.")]]),
     ("title", .str "policy.txt")]
    [("content", .str "Refunds are processed within 14 days.")]
    (.str "Refunds are processed within 14 days.") (.str "policy.txt")
    (.str "Within 14 days.") rfl rfl rfl rfl rfl

/-- C2: on a `POST /query` with a non-empty question, when the search yields
an empty results list, or a first result whose chunk list is absent or
empty, the route returns HTTP 200 with the fixed apology answer and never
invokes the synthesis function (the only external call is the search). -/
theorem c2_query_apology_no_synthesis
    (dataFields : List (String × Json)) (q : String) (hq : q ≠ "")
    (hdata : lookupField dataFields "question" = some (.str q))
    (searchResp geminiResp : HttpResponse)
    (h : search_supermemory_result searchResp = .ok (.arr [])
       ∨ ∃ (rfields : List (String × Json)) (rest : List Json),
           search_supermemory_result searchResp = .ok (.arr (.obj rfields :: rest))
           ∧ (lookupField rfields "chunks" = none
              ∨ lookupField rfields "chunks" = some (.arr []))) :
    query_route (.obj dataFields) searchResp geminiResp =
      (.resp 200 apologyBody, [.search (.str q)]) := by
  rcases h with h | ⟨rfields, rest, hs, hchunks⟩
  · simp [query_route, query_after_search, pyGet, hdata, truthy_str _ hq, h,
      Json.truthy, hq]
  · rcases hchunks with hc | hc <;>
      simp [query_route, query_after_search, pyGet, hdata, truthy_str _ hq, hs,
        pySubscript_arr_zero, hc, Json.truthy, hq]

/-- C2 witness: the theorem at an empty results list and at a first result
with an empty chunk list. -/
theorem c2_witness :
    query_route (.obj [("question", .str "anything?")])
        ⟨200, some (.obj [("results", .arr [])]), ""⟩ ⟨200, some (.obj []), ""⟩ =
      (.resp 200 apologyBody, [.search (.str "anything?")])
  ∧ query_route (.obj [("question", .str "anything?")])
        ⟨200, some (.obj [("results", .arr [.obj [("chunks", .arr []), ("title", .str "t")]])]), ""⟩
        ⟨200, some (.obj []), ""⟩ =
      (.resp 200 apologyBody, [.search (.str "anything?")]) :=
  ⟨c2_query_apology_no_synthesis [("question", .str "anything?")] "anything?"
      (by decide) rfl _ _ (Or.inl rfl),
   c2_query_apology_no_synthesis [("question", .str "anything?")] "anything?"
      (by decide) rfl _ _
      (Or.inr ⟨[("chunks", .arr []), ("title", .str "t")], [], rfl, Or.inr rfl⟩)⟩

/-- C8: `search_supermemory` posts the JSON payload `{q: <query>, limit: 1}`
to the `/search` endpoint with bearer-token authentication, and — on a
successful response — returns the body's `results` array, or the empty list
when that field is absent. -/
theorem c8_search_posts_q_limit_one
    (cfg : Config) (key : String) (hkey : cfg.supermemoryKey = some key)
    (q : String) :
    (search_request cfg (.str q) =
      { url := SUPERMEMORY_BASE_URL ++ "/search"
        headers := [("Authorization", "Bearer " ++ key),
                    ("Content-Type", "application/json")]
        body := .obj [("q", .str q), ("limit", .num 1)] })
  ∧ (∀ (resp : HttpResponse) (bodyFields : List (String × Json)),
       resp.status < 400 → resp.jsonBody = some (.obj bodyFields) →
       (∀ rs : List Json, lookupField bodyFields "results" = some (.arr rs) →
          search_supermemory_result resp = .ok (.arr rs))
       ∧ (lookupField bodyFields "results" = none →
          search_supermemory_result resp = .ok (.arr []))) := by
  constructor
  · simp [search_request, supermemoryHeaders, hkey, pyStrOpt]
  · intro resp bodyFields hst hbody
    have hr : raiseForStatus resp = .ok () :=
      raiseForStatus_ok resp (by omega)
    constructor
    · intro rs hrs
      unfold search_supermemory_result
      rw [hr]
      simp [bind, Except.bind, respJson, hbody, pyGet, hrs]
    · intro hnone
      unfold search_supermemory_result
      rw [hr]
      simp [bind, Except.bind, respJson, hbody, pyGet, hnone]

/-- C8 witness: the theorem at key "sm-key", query "where?", a response with
a `results` array of one entry and a response without a `results` field. -/
theorem c8_witness :
    (search_request ⟨some "sm-key", none⟩ (.str "where?") =
      { url := SUPERMEMORY_BASE_URL ++ "/search"
        headers := [("Authorization", "Bearer sm-key"),
                    ("Content-Type", "application/json")]
        body := .obj [("q", .str "where?"), ("limit", .num 1)] })
  ∧ search_supermemory_result ⟨200, some (.obj [("results", .arr [.str "r"])]), ""⟩ =
      .ok (.arr [.str "r"])
  ∧ search_supermemory_result ⟨200, some (.obj [("total", .num 0)]), ""⟩ =
      .ok (.arr []) := by
  have h := c8_search_posts_q_limit_one ⟨some "sm-key", none⟩ "sm-key" rfl "where?"
  refine ⟨h.1, ?_, ?_⟩
  · exact (h.2 ⟨200, some (.obj [("results", .arr [.str "r"])]), ""⟩
      [("results", .arr [.str "r"])] (by decide) rfl).1 [.str "r"] rfl
  · exact (h.2 ⟨200, some (.obj [("total", .num 0)]), ""⟩
      [("total", .num 0)] (by decide) rfl).2 rfl

/-- C9: `POST /upload` decodes the uploaded bytes as UTF-8 with invalid
sequences silently dropped: for every byte list — valid UTF-8 or not — the
route performs the ingestion call with the (possibly lossy) decoded string,
and the route's outcome does not depend on the bytes at all, so an upload is
never rejected because its content is not valid UTF-8. -/
theorem c9_upload_decode_never_rejects
    (name : String) (bytes bytes2 : List Nat) (memResp : HttpResponse)
    (hname : name ≠ "") :
    (upload_file_route (some ⟨name, bytes⟩) memResp).2 =
      [.addMemory (pyDecodeUtf8Ignore bytes) name]
  ∧ (upload_file_route (some ⟨name, bytes⟩) memResp).1 =
      (upload_file_route (some ⟨name, bytes2⟩) memResp).1 := by
  cases hm : add_memory_result memResp <;>
    simp [upload_file_route, hname, hm]

/-- C9 witness: the theorem at bytes that are not valid UTF-8 (a stray `0xFF`
and a truncated two-byte sequence); the decode drops them and the upload
still goes through with the lossily decoded string "h(". -/
theorem c9_witness :
    ((upload_file_route (some ⟨"notes.txt", [0xFF, 0x68, 0xC3, 0x28]⟩)
        ⟨200, some (.obj []), ""⟩).2 =
      [.addMemory (pyDecodeUtf8Ignore [0xFF, 0x68, 0xC3, 0x28]) "notes.txt"])
  ∧ pyDecodeUtf8Ignore [0xFF, 0x68, 0xC3, 0x28] = "h("
  ∧ (upload_file_route (some ⟨"notes.txt", [0xFF, 0x68, 0xC3, 0x28]⟩)
        ⟨200, some (.obj []), ""⟩).1 =
      (upload_file_route (some ⟨"notes.txt", []⟩) ⟨200, some (.obj []), ""⟩).1 := by
  have h := c9_upload_decode_never_rejects "notes.txt" [0xFF, 0x68, 0xC3, 0x28] []
    ⟨200, some (.obj []), ""⟩ (by decide)
  exact ⟨h.1, by decide, h.2⟩

/-- C3 counterexample: a 302 response is non-2xx, but `raise_for_status`
only raises for 4xx/5xx, so a 302 search response with a JSON body sails
through and `POST /query` returns HTTP 200 — not the claimed 500 with the
upstream status in the message. -/
theorem c3_counterexample :
    query_route (.obj [("question", .str "hi")])
        ⟨302, some (.obj [("results", .arr [])]), "Found"⟩
        ⟨200, some (.obj []), ""⟩ =
      (.resp 200 apologyBody, [.search (.str "hi")])
  ∧ (query_route (.obj [("question", .str "hi")])
        ⟨302, some (.obj [("results", .arr [])]), "Found"⟩
        ⟨200, some (.obj []), ""⟩).1.statusCode = some 200 :=
  ⟨rfl, rfl⟩

/-- C3 amended: when either upstream responds with a 4xx or 5xx status —
the statuses `raise_for_status` raises for; other non-2xx statuses such as
3xx are not raised — the endpoint returns HTTP 500 with an error message
that contains the upstream status code and body text: for `POST /upload` on
the ingestion call, and for `POST /query` on the search call and on the
synthesis call. -/
theorem c3_amended_4xx_5xx_propagate_as_500 :
    (∀ (name : String) (bytes : List Nat) (memResp : HttpResponse),
       name ≠ "" → 400 ≤ memResp.status → memResp.status < 600 →
       upload_file_route (some ⟨name, bytes⟩) memResp =
         (.resp 500 (.obj [("success", .bool false),
            ("error", .str ("API Error: " ++ toString memResp.status ++ " - " ++ memResp.text))]),
          [.addMemory (pyDecodeUtf8Ignore bytes) name]))
  ∧ (∀ (dataFields : List (String × Json)) (q : String)
       (searchResp geminiResp : HttpResponse),
       lookupField dataFields "question" = some (.str q) → q ≠ "" →
       400 ≤ searchResp.status → searchResp.status < 600 →
       query_route (.obj dataFields) searchResp geminiResp =
         (.resp 500 (.obj [("error",
            .str ("API Error: " ++ toString searchResp.status ++ " - " ++ searchResp.text))]),
          [.search (.str q)]))
  ∧ (∀ (dataFields : List (String × Json)) (q : String)
       (searchResp geminiResp : HttpResponse) (rest cs : List Json)
       (rfields cfields : List (String × Json)) (ctx ttl : Json),
       lookupField dataFields "question" = some (.str q) → q ≠ "" →
       search_supermemory_result searchResp = .ok (.arr (.obj rfields :: rest)) →
       lookupField rfields "chunks" = some (.arr (.obj cfields :: cs)) →
       lookupField cfields "content" = some ctx →
       lookupField rfields "title" = some ttl →
       400 ≤ geminiResp.status → geminiResp.status < 600 →
       query_route (.obj dataFields) searchResp geminiResp =
         (.resp 500 (.obj [("error",
            .str ("API Error: " ++ toString geminiResp.status ++ " - " ++ geminiResp.text))]),
          [.search (.str q), .synthesize (.str q) ctx ttl])) := by
  refine ⟨?_, ?_, ?_⟩
  · intro name bytes memResp hname h1 h2
    simp [upload_file_route, hname, add_memory_result_httpError memResp h1 h2,
      upload_catch]
  · intro dataFields q searchResp geminiResp hdata hq h1 h2
    simp [query_route, pyGet, hdata, truthy_str _ hq, hq,
      search_result_httpError searchResp h1 h2, query_catch]
  · intro dataFields q searchResp geminiResp rest cs rfields cfields ctx ttl
      hdata hq hs hchunks hcontent htitle h1 h2
    simp [query_route, query_after_search, pyGet, hdata, truthy_str _ hq, hq, hs,
      pySubscript_arr_zero, pySubscript, hchunks, hcontent, htitle,
      truthy_arr_cons, lookupField,
      generate_result_httpError geminiResp h1 h2, query_catch]

/-- C3 witness: the amended theorem at three concrete failures — ingestion
404, search 503 and synthesis 429 — each yielding the 500 with the upstream
status and body text embedded in the message. -/
theorem c3_witness :
    upload_file_route (some ⟨"a.txt", [0x68, 0x69]⟩) ⟨404, none, "Not Found"⟩ =
      (.resp 500 (.obj [("success", .bool false),
         ("error", .str "API Error: 404 - Not Found")]),
       [.addMemory "hi" "a.txt"])
  ∧ query_route (.obj [("question", .str "hi")]) ⟨503, none, "overloaded"⟩
        ⟨200, some (.obj []), ""⟩ =
      (.resp 500 (.obj [("error", .str "API Error: 503 - overloaded")]),
       [.search (.str "hi")])
  ∧ query_route (.obj [("question", .str "hi")])
        ⟨200, some (.obj [("results", .arr [.obj
          [("chunks", .arr [.obj [("content", .str "ctx")]]),
           ("title", .str "doc.txt")]])]), ""⟩
        ⟨429, none, "quota"⟩ =
      (.resp 500 (.obj [("error", .str "API Error: 429 - quota")]),
       [.search (.str "hi"),
        .synthesize (.str "hi") (.str "ctx") (.str "doc.txt")]) := by
  refine ⟨?_, ?_, ?_⟩
  · have h := c3_amended_4xx_5xx_propagate_as_500.1 "a.txt" [0x68, 0x69]
      ⟨404, none, "Not Found"⟩ (by decide) (by decide) (by decide)
    rw [h]
    rfl
  · exact c3_amended_4xx_5xx_propagate_as_500.2.1 [("question", .str "hi")] "hi"
      ⟨503, none, "overloaded"⟩ ⟨200, some (.obj []), ""⟩ rfl (by decide)
      (by decide) (by decide)
  · exact c3_amended_4xx_5xx_propagate_as_500.2.2 [("question", .str "hi")] "hi"
      ⟨200, some (.obj [("results", .arr [.obj
        [("chunks", .arr [.obj [("content", .str "ctx")]]),
         ("title", .str "doc.txt")]])]), ""⟩
      ⟨429, none, "quota"⟩ [] []
      [("chunks", .arr [.obj [("content", .str "ctx")]]), ("title", .str "doc.txt")]
      [("content", .str "ctx")] (.str "ctx") (.str "doc.txt")
      rfl (by decide) rfl rfl rfl rfl (by decide) (by decide)

/-- C4 counterexample: a search result whose chunk has no `content` field
and which itself has no `title` field does NOT produce the claimed HTTP 500
parse error — the route silently defaults them to the empty string and to
"an uploaded document", calls the synthesis with those defaults and returns
HTTP 200. -/
theorem c4_counterexample :
    query_route (.obj [("question", .str "hi")])
        ⟨200, some (.obj [("results",
          .arr [.obj [("chunks", .arr [.obj [("score", .num 1)]])]])]), ""⟩
        ⟨200, some (.obj [("candidates", .arr [.obj [("content", .obj [("parts",
          .arr [.obj [("text", .str "ANS")]])])]])]), ""⟩ =
      (.resp 200 (.obj [("answer", .str "ANS")]),
       [.search (.str "hi"),
        .synthesize (.str "hi") (.str "") (.str "an uploaded document")])
  ∧ (query_route (.obj [("question", .str "hi")])
        ⟨200, some (.obj [("results",
          .arr [.obj [("chunks", .arr [.obj [("score", .num 1)]])]])]), ""⟩
        ⟨200, some (.obj [("candidates", .arr [.obj [("content", .obj [("parts",
          .arr [.obj [("text", .str "ANS")]])])]])]), ""⟩).1.statusCode = some 200 :=
  ⟨rfl, rfl⟩

/-- C4 amended: a synthesis response lacking the
`candidates[0].content.parts[0].text` path (a missing key or an
out-of-range index, i.e. a `KeyError` or `IndexError` while extracting)
makes `POST /query` return HTTP 500 with the parse-error message; but a
search chunk lacking its `content` field, or a search result lacking its
`title` field, is NOT an error: the route silently defaults them to `""`
and to "an uploaded document" and proceeds to a normal HTTP 200 answer. -/
theorem c4_amended_parse_errors_and_silent_defaults :
    (∀ (dataFields : List (String × Json)) (q : String)
       (searchResp geminiResp : HttpResponse) (rest cs : List Json)
       (rfields cfields : List (String × Json)) (ctx ttl : Json) (e : PyErr),
       lookupField dataFields "question" = some (.str q) → q ≠ "" →
       search_supermemory_result searchResp = .ok (.arr (.obj rfields :: rest)) →
       lookupField rfields "chunks" = some (.arr (.obj cfields :: cs)) →
       lookupField cfields "content" = some ctx →
       lookupField rfields "title" = some ttl →
       generate_cohesive_answer_result geminiResp = .error e →
       (e = .indexError ∨ ∃ k, e = .keyError k) →
       query_route (.obj dataFields) searchResp geminiResp =
         (.resp 500 (.obj [("error",
            .str ("Could not parse the search response from Supermemory. Error: "
              ++ e.msg))]),
          [.search (.str q), .synthesize (.str q) ctx ttl]))
  ∧ (∀ (dataFields : List (String × Json)) (q : String)
       (searchResp geminiResp : HttpResponse) (rest cs : List Json)
       (rfields cfields : List (String × Json)) (ans : Json),
       lookupField dataFields "question" = some (.str q) → q ≠ "" →
       search_supermemory_result searchResp = .ok (.arr (.obj rfields :: rest)) →
       lookupField rfields "chunks" = some (.arr (.obj cfields :: cs)) →
       lookupField cfields "content" = none →
       lookupField rfields "title" = none →
       generate_cohesive_answer_result geminiResp = .ok ans →
       query_route (.obj dataFields) searchResp geminiResp =
         (.resp 200 (.obj [("answer", ans)]),
          [.search (.str q),
           .synthesize (.str q) (.str "") (.str "an uploaded document")])) := by
  constructor
  · intro dataFields q searchResp geminiResp rest cs rfields cfields ctx ttl e
      hdata hq hs hchunks hcontent htitle hg he
    have hcatch : query_catch e =
        .resp 500 (.obj [("error",
          .str ("Could not parse the search response from Supermemory. Error: "
            ++ e.msg))]) := by
      rcases he with he | ⟨k, he⟩ <;> subst he <;> rfl
    simp [query_route, query_after_search, pyGet, hdata, truthy_str _ hq, hq, hs,
      pySubscript_arr_zero, pySubscript, hchunks, hcontent, htitle,
      truthy_arr_cons, lookupField, hg, hcatch]
  · intro dataFields q searchResp geminiResp rest cs rfields cfields ans
      hdata hq hs hchunks hcontent htitle hg
    simp [query_route, query_after_search, pyGet, hdata, truthy_str _ hq, hq, hs,
      pySubscript_arr_zero, pySubscript, hchunks, hcontent, htitle,
      truthy_arr_cons, lookupField, hg]

/-- C4 witness: the amended theorem at a synthesis response whose
`candidates` array is empty (an `IndexError`, so the 500 parse-error
message) and at a search result with neither chunk `content` nor `title`
(the silent defaults and a 200). -/
theorem c4_witness :
    query_route (.obj [("question", .str "hi")])
        ⟨200, some (.obj [("results", .arr [.obj
          [("chunks", .arr [.obj [("content", .str "ctx")]]),
           ("title", .str "doc.txt")]])]), ""⟩
        ⟨200, some (.obj [("candidates", .arr [])]), ""⟩ =
      (.resp 500 (.obj [("error",
         .str "Could not parse the search response from Supermemory. Error: list index out of range")]),
       [.search (.str "hi"),
        .synthesize (.str "hi") (.str "ctx") (.str "doc.txt")])
  ∧ query_route (.obj [("question", .str "hi")])
        ⟨200, some (.obj [("results",
          .arr [.obj [("chunks", .arr [.obj [("score", .num 2)]])]])]), ""⟩
        ⟨200, some (.obj [("candidates", .arr [.obj [("content", .obj [("parts",
          .arr [.obj [("text", .str "ANS")]])])]])]), ""⟩ =
      (.resp 200 (.obj [("answer", .str "ANS")]),
       [.search (.str "hi"),
        .synthesize (.str "hi") (.str "") (.str "an uploaded document")]) := by
  constructor
  · have h := c4_amended_parse_errors_and_silent_defaults.1
      [("question", .str "hi")] "hi"
      ⟨200, some (.obj [("results", .arr [.obj
        [("chunks", .arr [.obj [("content", .str "ctx")]]),
         ("title", .str "doc.txt")]])]), ""⟩
      ⟨200, some (.obj [("candidates", .arr [])]), ""⟩
      [] [] [("chunks", .arr [.obj [("content", .str "ctx")]]), ("title", .str "doc.txt")]
      [("content", .str "ctx")] (.str "ctx") (.str "doc.txt") .indexError
      rfl (by decide) rfl rfl rfl rfl rfl (Or.inl rfl)
    rw [h]
    rfl
  · exact c4_amended_parse_errors_and_silent_defaults.2
      [("question", .str "hi")] "hi"
      ⟨200, some (.obj [("results",
        .arr [.obj [("chunks", .arr [.obj [("score", .num 2)]])]])]), ""⟩
      ⟨200, some (.obj [("candidates", .arr [.obj [("content", .obj [("parts",
        .arr [.obj [("text", .str "ANS")]])])]])]), ""⟩
      [] [] [("chunks", .arr [.obj [("score", .num 2)]])] [("score", .num 2)]
      (.str "ANS") rfl (by decide) rfl rfl rfl rfl rfl

end App
